import Mathlib

/-!
Shallow embedding of `src/index.js` of parse-cloud-express: an Express app
exposing Parse Cloud Code hooks (beforeSave / afterSave / beforeDelete /
afterDelete / cloud functions) as webhook HTTP routes.

Modelling conventions:
* JavaScript values are modelled by the inductive `JVal` (numbers as integers —
  no claim depends on float behaviour).  JS truthiness is `truthy`, JS
  `a || b` is `jsOr`, property access `o.k` is `getField o k` (which yields
  `undefined` on absent fields and on non-objects), assignment `o.k = v` is
  `setField` (a silent no-op on primitives, as in non-strict JS).
* The Parse SDK (`parse/node`) is an external collaborator; it is abstracted
  by the structure `ParseLib` over an abstract object type `Obj`:
  `fromJSON` models `Parse.Object.fromJSON`, `decode` models the partial
  application `Parse._decode(undefined, ·)`, `set` models `object.set(·)`,
  `toJSON` models `object.toJSON()`, `encode` models `Parse._encode`.
* Express requests are `Req` (with the parsed JSON body and the per-request
  fields the source attaches: `object`, `user`, `master`, `params`,
  `installationId`; `header` is the value of `req.get('X-Parse-Webhook-Key')`).
  The response is `ResState`: `sent` is the (write-once) response already
  flushed; `success` / `error` are the dynamically installed `res.success` /
  `res.error` closures.  A closure receives its argument and the request as it
  is at call time and returns the `Resp` it would send (`none` models a JS
  `TypeError`, e.g. calling `res.success` before installation or
  `req.object.toJSON()` with `req.object` undefined).  Express refuses a
  second send after the headers are flushed; `doSend` therefore keeps the
  first response.
* A middleware (`Mid`) maps a request and response state to the updated pair
  plus a `Bool` that is `true` exactly when the middleware called `next()`.
  `runChain` is the Express middleware chain semantics, `dispatch` the whole
  app: the two global `app.use` middlewares (`validateWebhookRequest`,
  `jsonParser` — body parsing is external, so it is the identity here) and
  then the first route whose method and path match.
* User handlers for the four object hooks are `CCHandler`: the handler may
  rewrite the request (e.g. mutate `req.object`) and then optionally invoke
  `res.success` / `res.error` once (`HAct`).  A cloud-function handler
  (`FnHandler`) returns a settled promise (`PromiseResult`); the arrow
  function in `define` adapts it (`functionAdapter`).
-/

/-- JavaScript runtime values (numbers restricted to integers). -/
inductive JVal where
  | undefined
  | null
  | bool (b : Bool)
  | num (n : Int)
  | str (s : String)
  | obj (fields : List (String × JVal))
  | arr (elems : List JVal)

/-- JS truthiness: `undefined`, `null`, `false`, `0` and `""` are falsy. -/
def truthy : JVal → Bool
  | .undefined => false
  | .null => false
  | .bool b => b
  | .num n => n != 0
  | .str s => s != ""
  | .obj _ => true
  | .arr _ => true

/-- JS `a || b`. -/
def jsOr (a b : JVal) : JVal := if truthy a then a else b

/-- JS `v === undefined`. -/
def isUndefined : JVal → Bool
  | .undefined => true
  | _ => false

/-- JS `v === null`. -/
def isNull : JVal → Bool
  | .null => true
  | _ => false

/-- JS property read `o.k`: `undefined` on absent keys and on non-objects. -/
def getField : JVal → String → JVal
  | .obj fs, k => (fs.lookup k).getD JVal.undefined
  | _, _ => JVal.undefined

/-- Replace the first binding of `k` (or append one) in an association list. -/
def setFieldList : List (String × JVal) → String → JVal → List (String × JVal)
  | [], k, v => [(k, v)]
  | (k1, v1) :: rest, k, v =>
    if k1 = k then (k, v) :: rest else (k1, v1) :: setFieldList rest k v

/-- JS property write `o.k = v` (a silent no-op on primitives). -/
def setField : JVal → String → JVal → JVal
  | .obj fs, k, v => .obj (setFieldList fs k v)
  | j, _, _ => j

mutual

/-- JS string coercion (as produced by `'…' + v`). -/
def jsToString : JVal → String
  | .undefined => "undefined"
  | .null => "null"
  | .bool b => if b then "true" else "false"
  | .num n => toString n
  | .str s => s
  | .obj _ => "[object Object]"
  | .arr xs => jsToStringArr xs

/-- JS array-to-string: elements joined by commas, nullish elements empty. -/
def jsToStringArr : List JVal → String
  | [] => ""
  | [JVal.undefined] => ""
  | [JVal.null] => ""
  | [x] => jsToString x
  | JVal.undefined :: xs => "," ++ jsToStringArr xs
  | JVal.null :: xs => "," ++ jsToStringArr xs
  | x :: xs => jsToString x ++ "," ++ jsToStringArr xs

end

/-- The Parse SDK operations the source uses, over an abstract domain-object
type `Obj` (the SDK is an external collaborator of this repository). -/
structure ParseLib (Obj : Type) where
  fromJSON : JVal → Obj
  decode : JVal → JVal
  set : Obj → JVal → Obj
  toJSON : Obj → JVal
  encode : JVal → JVal

/-- An HTTP response: status code and JSON body. -/
structure Resp where
  status : Nat
  body : JVal

/-- An in-flight request: the webhook-key header, method, URL path, parsed
JSON body, and the fields middleware attaches to `req`. -/
structure Req (Obj : Type) where
  method : String
  path : String
  header : Option String
  body : JVal
  object : Option Obj
  user : Option Obj
  master : JVal
  params : JVal
  installationId : JVal

/-- The response object: what has been flushed (write-once) and the
`res.success` / `res.error` closures middleware installs.  A closure returns
the response it sends, given its argument and the request at call time;
`none` models a JS `TypeError` (closure not yet installed, or a crash). -/
structure ResState (Obj : Type) where
  sent : Option Resp
  success : JVal → Req Obj → Option Resp
  error : JVal → Req Obj → Option Resp

/-- Response state before any middleware ran: nothing sent, `res.success` and
`res.error` not yet installed. -/
def initResState {Obj : Type} : ResState Obj :=
  { sent := none, success := fun _ _ => none, error := fun _ _ => none }

/-- Flush a response; Express rejects a second send, so the first one wins. -/
def doSend {Obj : Type} (rs : ResState Obj) (r : Resp) : ResState Obj :=
  match rs.sent with
  | some _ => rs
  | none => { rs with sent := some r }

/-- Invoke the installed `res.success` closure. -/
def callSuccess {Obj : Type} (req : Req Obj) (rs : ResState Obj) (data : JVal) :
    ResState Obj :=
  match rs.success data req with
  | some r => doSend rs r
  | none => rs

/-- Invoke the installed `res.error` closure. -/
def callError {Obj : Type} (req : Req Obj) (rs : ResState Obj) (data : JVal) :
    ResState Obj :=
  match rs.error data req with
  | some r => doSend rs r
  | none => rs

/-- An Express middleware: transforms request and response state; the final
`Bool` is `true` exactly when it called `next()`. -/
def Mid (Obj : Type) : Type :=
  Req Obj → ResState Obj → Req Obj × ResState Obj × Bool

/-- Express middleware chain semantics: run the steps in order, stopping as
soon as one does not call `next()`. -/
def runChain {Obj : Type} :
    List (Mid Obj) → Req Obj → ResState Obj → Req Obj × ResState Obj × Bool
  | [], req, rs => (req, rs, true)
  | m :: ms, req, rs =>
    match m req rs with
    | (req1, rs1, true) => runChain ms req1 rs1
    | (req1, rs1, false) => (req1, rs1, false)

/-- Source `successResponse`: `data = data || true; res.status(200).send({success: data})`.
Modelled as the response it sends. -/
def successResponse (data : JVal) : Resp :=
  { status := 200, body := JVal.obj [("success", jsOr data (JVal.bool true))] }

/-- Source `errorResponse`: `message = message || true; res.status(200).send({error: message})`. -/
def errorResponse (message : JVal) : Resp :=
  { status := 200, body := JVal.obj [("error", jsOr message (JVal.bool true))] }

/-- Source `validateWebhookRequest`: reject the request with the fixed error
envelope when the `X-Parse-Webhook-Key` header differs (`!==`) from the
configured key, else `next()`. -/
def validateWebhookRequest {Obj : Type} (webhookKey : Option String) : Mid Obj :=
  fun req rs =>
    if req.header ≠ webhookKey then
      (req, doSend rs (errorResponse (JVal.str "Unauthorized Request.")), false)
    else
      (req, rs, true)

/-- The `body-parser` JSON middleware is an external collaborator; the model's
`Req.body` is already the parsed body, so this step only calls `next()`. -/
def jsonParser {Obj : Type} : Mid Obj := fun req rs => (req, rs, true)

/-- The object `inflateParseObject` stores in `req.object`: merge of
`original` and `update` when both are truthy, else the inflation of the
body's `object` field. -/
def inflatedObject {Obj : Type} (P : ParseLib Obj) (body : JVal) : Obj :=
  if truthy (getField body "original") && truthy (getField body "update") then
    P.set (P.fromJSON (getField body "original")) (P.decode (getField body "update"))
  else
    P.fromJSON (getField body "object")

/-- Request effect of source `inflateParseObject`. -/
def inflateObjectReq {Obj : Type} (P : ParseLib Obj) (req : Req Obj) : Req Obj :=
  { req with object := some (inflatedObject P req.body) }

/-- Source `inflateParseObject` middleware. -/
def inflateParseObject {Obj : Type} (P : ParseLib Obj) : Mid Obj :=
  fun req rs => (inflateObjectReq P req, rs, true)

/-- Source `addParseResponseMethods`: installs `res.success` / `res.error`
(which log — not modelled — and send via `successResponse` / `errorResponse`). -/
def addParseResponseMethods {Obj : Type} : Mid Obj :=
  fun req rs =>
    (req,
     { rs with
        success := fun data _ => some (successResponse data),
        error := fun data _ => some (errorResponse data) },
     true)

/-- Source `encodeSuccessResponseObject`: wraps `res.success` so the payload
is passed through `Parse._encode` first. -/
def encodeSuccessResponseObject {Obj : Type} (P : ParseLib Obj) : Mid Obj :=
  fun req rs =>
    (req, { rs with success := fun data r => rs.success (P.encode data) r }, true)

/-- Source `updateRequestFunctionParams`: `req.params = req.body.params`. -/
def updateRequestFunctionParams {Obj : Type} : Mid Obj :=
  fun req rs => ({ req with params := getField req.body "params" }, rs, true)

/-- Source `updateRequestInstallationId`: `req.installationId = req.body.installationId`. -/
def updateRequestInstallationId {Obj : Type} : Mid Obj :=
  fun req rs => ({ req with installationId := getField req.body "installationId" }, rs, true)

/-- Request effect of source `inflateParseUser`: when `req.body.user` is
truthy, default its `className` to `"_User"` when that is `=== undefined`
(mutating the body in place, as the source does), inflate it into `req.user`;
always copy `req.body.master` to `req.master`. -/
def inflateUserReq {Obj : Type} (P : ParseLib Obj) (req : Req Obj) : Req Obj :=
  if truthy (getField req.body "user") then
    let u :=
      if isUndefined (getField (getField req.body "user") "className") then
        setField (getField req.body "user") "className" (JVal.str "_User")
      else
        getField req.body "user"
    let body1 := setField req.body "user" u
    { req with body := body1, user := some (P.fromJSON u),
               master := getField body1 "master" }
  else
    { req with master := getField req.body "master" }

/-- Source `inflateParseUser` middleware. -/
def inflateParseUser {Obj : Type} (P : ParseLib Obj) : Mid Obj :=
  fun req rs => (inflateUserReq P req, rs, true)

/-- Source `emptyResponse`: `res.status(200).send({})` and then `next()`. -/
def emptyResponse {Obj : Type} : Mid Obj :=
  fun req rs => (req, doSend rs { status := 200, body := JVal.obj [] }, true)

/-- Source `entryLogger`: logs the class name and action type; no control or
state effect. -/
def entryLogger {Obj : Type} (className : JVal) (actionType : String) : Mid Obj :=
  fun req rs => (req, rs, true)

/-- One `res.success` / `res.error` invocation a cloud-code handler performs. -/
inductive HAct where
  | success (data : JVal)
  | error (data : JVal)

/-- A cloud-code handler for the four object hooks: it may rewrite the request
(e.g. mutate `req.object`) and then invoke at most one response method.
Calling `res.success()` with no argument is `HAct.success JVal.undefined`,
exactly as JS passes `undefined` for a missing parameter. -/
def CCHandler (Obj : Type) : Type := Req Obj → Req Obj × Option HAct

/-- Run a cloud-code handler as the final middleware of a hook route. -/
def runCCHandler {Obj : Type} (h : CCHandler Obj) : Mid Obj :=
  fun req rs =>
    match h req with
    | (req1, some (HAct.success d)) => (req1, callSuccess req1 rs d, false)
    | (req1, some (HAct.error d)) => (req1, callError req1 rs d, false)
    | (req1, none) => (req1, rs, false)

/-- The settled outcome of the promise a cloud-function handler returns. -/
inductive PromiseResult where
  | resolved (value : JVal)
  | rejected (err : JVal)

/-- A cloud-function handler: called with the request, returns a promise. -/
def FnHandler (Obj : Type) : Type := Req Obj → PromiseResult

/-- The arrow function in source `define`: awaits the handler's promise and
routes fulfilment into `res.success`, rejection into `res.error`. -/
def functionAdapter {Obj : Type} (h : FnHandler Obj) : Mid Obj :=
  fun req rs =>
    match h req with
    | .resolved v => (req, callSuccess req rs v, false)
    | .rejected e => (req, callError req rs e, false)

/-- The source's module-level `Routes` registration table: one identifier list
per hook kind. -/
structure RoutesTable where
  beforeSave : List JVal
  afterSave : List JVal
  beforeDelete : List JVal
  afterDelete : List JVal
  function : List JVal

/-- One route the Express app holds: HTTP method, path, middleware chain. -/
structure Route (Obj : Type) where
  method : String
  path : String
  chain : List (Mid Obj)

/-- The module state the registration functions mutate: the Express app's
route list and the `Routes` table. -/
structure CloudState (Obj : Type) where
  app : List (Route Obj)
  routes : RoutesTable

/-- Module state at load time: no routes registered. -/
def initState {Obj : Type} : CloudState Obj :=
  { app := [], routes := ⟨[], [], [], [], []⟩ }

/-- Source `beforeSaveResponseMojo`: wraps `res.success` so that any call
(whatever its argument) sends `req.object.toJSON()` — reading `req.object`
at call time — through the previously installed `res.success`. -/
def beforeSaveResponseMojo {Obj : Type} (P : ParseLib Obj) : Mid Obj :=
  fun req rs =>
    (req,
     { rs with
        success := fun _ r =>
          match r.object with
          | some o => rs.success (P.toJSON o) r
          | none => none },
     true)

/-- Middleware chain source `beforeSave` installs. -/
def beforeSaveChain {Obj : Type} (P : ParseLib Obj) (className : JVal)
    (handler : CCHandler Obj) : List (Mid Obj) :=
  [entryLogger className "beforeSave",
   updateRequestInstallationId,
   addParseResponseMethods,
   inflateParseObject P,
   inflateParseUser P,
   beforeSaveResponseMojo P,
   runCCHandler handler]

/-- Source `beforeSave`: bind a POST route at `'/beforeSave_' + className`
with the hook's chain and append the identifier to `Routes['beforeSave']`. -/
def beforeSave {Obj : Type} (P : ParseLib Obj) (className : JVal)
    (handler : CCHandler Obj) (s : CloudState Obj) : CloudState Obj :=
  { app := s.app ++
      [{ method := "POST", path := "/beforeSave_" ++ jsToString className,
         chain := beforeSaveChain P className handler }],
    routes := { s.routes with beforeSave := s.routes.beforeSave ++ [className] } }

/-- Middleware chain source `afterSave` installs. -/
def afterSaveChain {Obj : Type} (P : ParseLib Obj) (className : JVal)
    (handler : CCHandler Obj) : List (Mid Obj) :=
  [entryLogger className "afterSave",
   updateRequestInstallationId,
   addParseResponseMethods,
   inflateParseObject P,
   inflateParseUser P,
   emptyResponse,
   runCCHandler handler]

/-- Source `afterSave`. -/
def afterSave {Obj : Type} (P : ParseLib Obj) (className : JVal)
    (handler : CCHandler Obj) (s : CloudState Obj) : CloudState Obj :=
  { app := s.app ++
      [{ method := "POST", path := "/afterSave_" ++ jsToString className,
         chain := afterSaveChain P className handler }],
    routes := { s.routes with afterSave := s.routes.afterSave ++ [className] } }

/-- Middleware chain source `beforeDelete` installs. -/
def beforeDeleteChain {Obj : Type} (P : ParseLib Obj) (className : JVal)
    (handler : CCHandler Obj) : List (Mid Obj) :=
  [entryLogger className "beforeDelete",
   updateRequestInstallationId,
   addParseResponseMethods,
   inflateParseObject P,
   inflateParseUser P,
   runCCHandler handler]

/-- Source `beforeDelete`. -/
def beforeDelete {Obj : Type} (P : ParseLib Obj) (className : JVal)
    (handler : CCHandler Obj) (s : CloudState Obj) : CloudState Obj :=
  { app := s.app ++
      [{ method := "POST", path := "/beforeDelete_" ++ jsToString className,
         chain := beforeDeleteChain P className handler }],
    routes := { s.routes with beforeDelete := s.routes.beforeDelete ++ [className] } }

/-- Middleware chain source `afterDelete` installs. -/
def afterDeleteChain {Obj : Type} (P : ParseLib Obj) (className : JVal)
    (handler : CCHandler Obj) : List (Mid Obj) :=
  [entryLogger className "afterDelete",
   updateRequestInstallationId,
   addParseResponseMethods,
   inflateParseObject P,
   inflateParseUser P,
   emptyResponse,
   runCCHandler handler]

/-- Source `afterDelete`. -/
def afterDelete {Obj : Type} (P : ParseLib Obj) (className : JVal)
    (handler : CCHandler Obj) (s : CloudState Obj) : CloudState Obj :=
  { app := s.app ++
      [{ method := "POST", path := "/afterDelete_" ++ jsToString className,
         chain := afterDeleteChain P className handler }],
    routes := { s.routes with afterDelete := s.routes.afterDelete ++ [className] } }

/-- Middleware chain source `define` installs. -/
def defineChain {Obj : Type} (P : ParseLib Obj) (functionName : JVal)
    (handler : FnHandler Obj) : List (Mid Obj) :=
  [entryLogger functionName "function",
   updateRequestInstallationId,
   updateRequestFunctionParams,
   addParseResponseMethods,
   encodeSuccessResponseObject P,
   inflateParseUser P,
   functionAdapter handler]

/-- Source `define`: bind a POST route at `'/function_' + functionName` and
append the identifier to `Routes['function']`. -/
def define {Obj : Type} (P : ParseLib Obj) (functionName : JVal)
    (handler : FnHandler Obj) (s : CloudState Obj) : CloudState Obj :=
  { app := s.app ++
      [{ method := "POST", path := "/function_" ++ jsToString functionName,
         chain := defineChain P functionName handler }],
    routes := { s.routes with function := s.routes.function ++ [functionName] } }

/-- Source `inflateObjectsToClassNames`: pass the argument through unchanged
when it is `null` or its `className` is falsy, else substitute `className`. -/
def inflateObjectsToClassNames {Obj H : Type}
    (methodToWrap : JVal → H → CloudState Obj → CloudState Obj) :
    JVal → H → CloudState Obj → CloudState Obj :=
  fun objectOrClassName handler =>
    if isNull objectOrClassName || !truthy (getField objectOrClassName "className") then
      methodToWrap objectOrClassName handler
    else
      methodToWrap (getField objectOrClassName "className") handler

/-- Exported `Parse.Cloud.beforeSave`. -/
def ParseCloudBeforeSave {Obj : Type} (P : ParseLib Obj) :
    JVal → CCHandler Obj → CloudState Obj → CloudState Obj :=
  inflateObjectsToClassNames (beforeSave P)

/-- Exported `Parse.Cloud.afterSave`. -/
def ParseCloudAfterSave {Obj : Type} (P : ParseLib Obj) :
    JVal → CCHandler Obj → CloudState Obj → CloudState Obj :=
  inflateObjectsToClassNames (afterSave P)

/-- Exported `Parse.Cloud.beforeDelete`. -/
def ParseCloudBeforeDelete {Obj : Type} (P : ParseLib Obj) :
    JVal → CCHandler Obj → CloudState Obj → CloudState Obj :=
  inflateObjectsToClassNames (beforeDelete P)

/-- Exported `Parse.Cloud.afterDelete`. -/
def ParseCloudAfterDelete {Obj : Type} (P : ParseLib Obj) :
    JVal → CCHandler Obj → CloudState Obj → CloudState Obj :=
  inflateObjectsToClassNames (afterDelete P)

/-- Exported `Parse.Cloud.define` — assigned directly, without the
`inflateObjectsToClassNames` wrapper. -/
def ParseCloudDefine {Obj : Type} (P : ParseLib Obj) :
    JVal → FnHandler Obj → CloudState Obj → CloudState Obj :=
  define P

/-- One registration call through the exported `Parse.Cloud` surface. -/
inductive RegOp (Obj : Type) where
  | regBeforeSave (c : JVal) (h : CCHandler Obj)
  | regAfterSave (c : JVal) (h : CCHandler Obj)
  | regBeforeDelete (c : JVal) (h : CCHandler Obj)
  | regAfterDelete (c : JVal) (h : CCHandler Obj)
  | regDefine (n : JVal) (h : FnHandler Obj)

/-- Apply one registration call to the module state. -/
def applyReg {Obj : Type} (P : ParseLib Obj) : RegOp Obj → CloudState Obj → CloudState Obj
  | .regBeforeSave c h, s => ParseCloudBeforeSave P c h s
  | .regAfterSave c h, s => ParseCloudAfterSave P c h s
  | .regBeforeDelete c h, s => ParseCloudBeforeDelete P c h s
  | .regAfterDelete c h, s => ParseCloudAfterDelete P c h s
  | .regDefine n h, s => ParseCloudDefine P n h s

/-- Module state after a startup sequence of registration calls. -/
def buildState {Obj : Type} (P : ParseLib Obj) (ops : List (RegOp Obj)) : CloudState Obj :=
  ops.foldl (fun s op => applyReg P op s) initState

/-- Express route lookup: the first route whose method and path match. -/
def findRoute {Obj : Type} (app : List (Route Obj)) (method path : String) :
    Option (Route Obj) :=
  app.find? (fun r => r.method == method && r.path == path)

/-- Whole-app request handling: the two global `app.use` middlewares
(`validateWebhookRequest`, then the JSON body parser), then the matched
route's chain.  An unmatched path falls through to Express's default 404,
which is outside this module (nothing of this layer is sent). -/
def dispatch {Obj : Type} (webhookKey : Option String) (s : CloudState Obj)
    (req : Req Obj) : Req Obj × ResState Obj × Bool :=
  match validateWebhookRequest webhookKey req initResState with
  | (req1, rs1, false) => (req1, rs1, false)
  | (req1, rs1, true) =>
    match jsonParser req1 rs1 with
    | (req2, rs2, false) => (req2, rs2, false)
    | (req2, rs2, true) =>
      match findRoute s.app req2.method req2.path with
      | some rt => runChain rt.chain req2 rs2
      | none => (req2, rs2, true)

/-- A concrete instantiation of the abstract Parse SDK, used to evaluate the
pipeline on concrete inputs: objects are their own JSON, `set` pairs the base
object with the decoded update so merges stay observable. -/
def idLib : ParseLib JVal :=
  { fromJSON := fun j => j,
    decode := fun j => j,
    set := fun o u => JVal.arr [o, u],
    toJSON := fun o => o,
    encode := fun j => j }

/-- A request template: POST with an empty body and no attached context. -/
def mkReq (path : String) (header : Option String) (body : JVal) : Req JVal :=
  { method := "POST", path := path, header := header, body := body,
    object := none, user := none, master := JVal.undefined,
    params := JVal.undefined, installationId := JVal.undefined }

/-- Claim C1: a request whose `X-Parse-Webhook-Key` header does not equal the
configured secret receives `{error: "Unauthorized Request."}` with HTTP
status 200, and nothing later in the pipeline — in particular no registered
handler — ever runs: the whole dispatch result is independent of the
registered routes and handlers. -/
theorem webhook_auth_short_circuit {Obj : Type} (webhookKey : Option String)
    (s : CloudState Obj) (req : Req Obj) (hkey : req.header ≠ webhookKey) :
    (dispatch webhookKey s req).2.1.sent =
      some { status := 200, body := JVal.obj [("error", JVal.str "Unauthorized Request.")] }
    ∧ ∀ s2 : CloudState Obj, dispatch webhookKey s req = dispatch webhookKey s2 req := by
  have hv : validateWebhookRequest webhookKey req (initResState : ResState Obj) =
      (req, doSend initResState (errorResponse (JVal.str "Unauthorized Request.")), false) := by
    simp [validateWebhookRequest, hkey]
  have hd : ∀ s1 : CloudState Obj, dispatch webhookKey s1 req =
      (req, doSend initResState (errorResponse (JVal.str "Unauthorized Request.")), false) := by
    intro s1
    unfold dispatch
    rw [hv]
  constructor
  · rw [hd s]
    rfl
  · intro s2
    rw [hd s, hd s2]

/-- Witness for C1 at a concrete unauthorized request. -/
theorem webhook_auth_short_circuit_witness :
    (dispatch (some "secret") (initState : CloudState JVal) (mkReq "/function_ping" (some "wrong") (JVal.obj []))).2.1.sent =
      some { status := 200, body := JVal.obj [("error", JVal.str "Unauthorized Request.")] }
    ∧ ∀ s2 : CloudState JVal,
        dispatch (some "secret") initState (mkReq "/function_ping" (some "wrong") (JVal.obj [])) =
        dispatch (some "secret") s2 (mkReq "/function_ping" (some "wrong") (JVal.obj [])) :=
  webhook_auth_short_circuit (some "secret") initState
    (mkReq "/function_ping" (some "wrong") (JVal.obj [])) (by decide)

/-- Claim C9: every registration call with identifier `I` and hook kind `K`
appends `I` at the end of the Registration Table entry for `K` and appends to
the app one POST route at the synthesized path `'/<hookKindPrefix>_' + I`
carrying that kind's middleware chain (the leading slash being the URL-path
spelling the source uses). -/
theorem registration_effects {Obj : Type} (P : ParseLib Obj) (s : CloudState Obj)
    (c : JVal) (hc : CCHandler Obj) (hf : FnHandler Obj) :
    (beforeSave P c hc s).routes.beforeSave = s.routes.beforeSave ++ [c]
    ∧ (beforeSave P c hc s).app = s.app ++
        [{ method := "POST", path := "/beforeSave_" ++ jsToString c,
           chain := beforeSaveChain P c hc }]
    ∧ (afterSave P c hc s).routes.afterSave = s.routes.afterSave ++ [c]
    ∧ (afterSave P c hc s).app = s.app ++
        [{ method := "POST", path := "/afterSave_" ++ jsToString c,
           chain := afterSaveChain P c hc }]
    ∧ (beforeDelete P c hc s).routes.beforeDelete = s.routes.beforeDelete ++ [c]
    ∧ (beforeDelete P c hc s).app = s.app ++
        [{ method := "POST", path := "/beforeDelete_" ++ jsToString c,
           chain := beforeDeleteChain P c hc }]
    ∧ (afterDelete P c hc s).routes.afterDelete = s.routes.afterDelete ++ [c]
    ∧ (afterDelete P c hc s).app = s.app ++
        [{ method := "POST", path := "/afterDelete_" ++ jsToString c,
           chain := afterDeleteChain P c hc }]
    ∧ (define P c hf s).routes.function = s.routes.function ++ [c]
    ∧ (define P c hf s).app = s.app ++
        [{ method := "POST", path := "/function_" ++ jsToString c,
           chain := defineChain P c hf }] :=
  ⟨rfl, rfl, rfl, rfl, rfl, rfl, rfl, rfl, rfl, rfl⟩

/-- Claim C5 (counterexample): the claim says a supplied payload is sent
as-is and the `true` default appears exactly when no payload is supplied; but
`successResponse` defaults via JS `||`, so the supplied payload `false` is
replaced by `true`. -/
theorem response_default_cex :
    successResponse (JVal.bool false) =
      { status := 200, body := JVal.obj [("success", JVal.bool true)] }
    ∧ JVal.obj [("success", JVal.bool true)] ≠ JVal.obj [("success", JVal.bool false)] := by
  refine ⟨rfl, ?_⟩
  simp

/-- Claim C5 (amended): the success sender yields status 200 with body
`{success: v || true}` and the error sender `{error: v || true}` — the
supplied payload is sent as-is exactly when it is truthy, and the literal
`true` default is used for every falsy payload (`undefined`, `null`,
`false`, `0`, `""`), not only a missing one. -/
theorem response_default_truthiness (v : JVal) :
    successResponse v = { status := 200, body := JVal.obj [("success", jsOr v (JVal.bool true))] }
    ∧ errorResponse v = { status := 200, body := JVal.obj [("error", jsOr v (JVal.bool true))] }
    ∧ (truthy v = true → successResponse v = { status := 200, body := JVal.obj [("success", v)] }
        ∧ errorResponse v = { status := 200, body := JVal.obj [("error", v)] })
    ∧ (truthy v = false → successResponse v = { status := 200, body := JVal.obj [("success", JVal.bool true)] }
        ∧ errorResponse v = { status := 200, body := JVal.obj [("error", JVal.bool true)] }) := by
  refine ⟨rfl, rfl, ?_, ?_⟩ <;> intro htv <;>
    constructor <;> simp [successResponse, errorResponse, jsOr, htv]

/-- Witness for the amended C5 at concrete payloads. -/
theorem response_default_truthiness_witness :
    (truthy (JVal.str "ok") = true →
      successResponse (JVal.str "ok") = { status := 200, body := JVal.obj [("success", JVal.str "ok")] }
      ∧ errorResponse (JVal.str "ok") = { status := 200, body := JVal.obj [("error", JVal.str "ok")] })
    ∧ (truthy (JVal.str "ok") = false →
      successResponse (JVal.str "ok") = { status := 200, body := JVal.obj [("success", JVal.bool true)] }
      ∧ errorResponse (JVal.str "ok") = { status := 200, body := JVal.obj [("error", JVal.bool true)] }) :=
  ⟨fun h => ((response_default_truthiness (JVal.str "ok")).2.2.1 h),
   fun h => ((response_default_truthiness (JVal.str "ok")).2.2.2 h)⟩

/-- Running a one-element chain is running that middleware. -/
theorem runChain_one {Obj : Type} (m : Mid Obj) (req : Req Obj) (rs : ResState Obj) :
    runChain [m] req rs = m req rs := by
  rcases hm : m req rs with ⟨req1, rs1, c⟩
  cases c <;> simp [runChain, hm]

/-- An authorized request that matches a route runs exactly that route's
chain from the initial response state. -/
theorem dispatch_authorized {Obj : Type} (webhookKey : Option String)
    (s : CloudState Obj) (req : Req Obj) (rt : Route Obj)
    (hauth : req.header = webhookKey)
    (hfind : findRoute s.app req.method req.path = some rt) :
    dispatch webhookKey s req = runChain rt.chain req initResState := by
  have hv : validateWebhookRequest webhookKey req (initResState : ResState Obj) =
      (req, initResState, true) := by
    simp [validateWebhookRequest, hauth]
  simp only [dispatch, hv, jsonParser, hfind]

/-- Request context after the shared save/delete-hook middleware: copied
installation id, inflated object, inflated user. -/
def savePipelineReq {Obj : Type} (P : ParseLib Obj) (req : Req Obj) : Req Obj :=
  inflateUserReq P (inflateObjectReq P
    { req with installationId := getField req.body "installationId" })

/-- Response state right after `addParseResponseMethods`. -/
def installedRS {Obj : Type} : ResState Obj :=
  { sent := none,
    success := fun data _ => some (successResponse data),
    error := fun data _ => some (errorResponse data) }

/-- Response state right after `emptyResponse` flushed `{}` on a fresh
`installedRS`. -/
def emptySentRS {Obj : Type} : ResState Obj :=
  { sent := some { status := 200, body := JVal.obj [] },
    success := fun data _ => some (successResponse data),
    error := fun data _ => some (errorResponse data) }

/-- The do-nothing cloud-code handler. -/
def noopHandler {Obj : Type} : CCHandler Obj := fun r => (r, none)

/-- Claim C3 (counterexample): on an afterSave route the flushed body is the
bare empty object `{}`, which is not the success-envelope wrapping
`{success: {}}` the claim describes. -/
theorem after_hook_empty_response_cex :
    (dispatch (some "k")
        (afterSave idLib (JVal.str "Post") noopHandler initState)
        (mkReq "/afterSave_Post" (some "k")
          (JVal.obj [("object", JVal.obj [("className", JVal.str "Post")])]))).2.1.sent =
      some { status := 200, body := JVal.obj [] }
    ∧ JVal.obj [] ≠ JVal.obj [("success", JVal.obj [])] := by
  refine ⟨rfl, ?_⟩
  simp

/-- Claim C3 (amended): for every afterSave and afterDelete route and every
authenticated request, the response flushed is always the literal empty JSON
object `{}` with status 200 (sent by `emptyResponse`, not wrapped in the
success envelope), it is flushed before the handler runs, and the handler is
still invoked afterwards on the fully inflated request — whatever the handler
then does, its output is never transmitted because the response is already
sent. -/
theorem after_hook_empty_response {Obj : Type} (P : ParseLib Obj)
    (webhookKey : Option String) (s : CloudState Obj) (req : Req Obj)
    (c : JVal) (h : CCHandler Obj) (rt : Route Obj)
    (hauth : req.header = webhookKey)
    (hfind : findRoute s.app req.method req.path = some rt)
    (hchain : rt.chain = afterSaveChain P c h ∨ rt.chain = afterDeleteChain P c h) :
    dispatch webhookKey s req = runCCHandler h (savePipelineReq P req) emptySentRS
    ∧ (dispatch webhookKey s req).2.1.sent = some { status := 200, body := JVal.obj [] } := by
  have hd := dispatch_authorized webhookKey s req rt hauth hfind
  have h1 : dispatch webhookKey s req =
      runCCHandler h (savePipelineReq P req) emptySentRS := by
    rcases hchain with hch | hch <;>
      (rw [hd, hch]
       have h2 : runChain [runCCHandler h] (savePipelineReq P req) emptySentRS =
           runCCHandler h (savePipelineReq P req) emptySentRS := runChain_one _ _ _
       exact h2)
  refine ⟨h1, ?_⟩
  rw [h1]
  rcases hh : h (savePipelineReq P req) with ⟨rh, act⟩
  rcases act with _ | a
  · simp [runCCHandler, hh, emptySentRS]
  · rcases a with d | d <;>
      simp [runCCHandler, hh, callSuccess, callError, emptySentRS, doSend]

/-- Witness for the amended C3 at a concrete afterSave dispatch. -/
theorem after_hook_empty_response_witness :
    dispatch (some "w")
        (afterSave idLib (JVal.str "Item") noopHandler initState)
        (mkReq "/afterSave_Item" (some "w") (JVal.obj [("object", JVal.obj [])])) =
      runCCHandler noopHandler
        (savePipelineReq idLib
          (mkReq "/afterSave_Item" (some "w") (JVal.obj [("object", JVal.obj [])])))
        emptySentRS
    ∧ (dispatch (some "w")
        (afterSave idLib (JVal.str "Item") noopHandler initState)
        (mkReq "/afterSave_Item" (some "w") (JVal.obj [("object", JVal.obj [])]))).2.1.sent =
      some { status := 200, body := JVal.obj [] } :=
  after_hook_empty_response idLib (some "w") _ _ (JVal.str "Item") noopHandler _
    rfl rfl (Or.inl rfl)

/-- Request context after the cloud-function middleware: copied installation
id and params, inflated user. -/
def fnPipelineReq {Obj : Type} (P : ParseLib Obj) (req : Req Obj) : Req Obj :=
  inflateUserReq P
    { req with installationId := getField req.body "installationId",
               params := getField req.body "params" }

/-- A cloud-function handler resolving with the literal `false`. -/
def resolveFalse : FnHandler JVal := fun _ => PromiseResult.resolved (JVal.bool false)

/-- Claim C2 (counterexample): a function handler resolving with `false`
yields `{success: true}` — not `{success: encode(false)}` as the claim says —
because `successResponse` replaces every falsy payload by `true`. -/
theorem function_route_response_cex :
    (dispatch (some "k")
        (define idLib (JVal.str "flag") resolveFalse initState)
        (mkReq "/function_flag" (some "k") (JVal.obj []))).2.1.sent =
      some { status := 200, body := JVal.obj [("success", JVal.bool true)] }
    ∧ JVal.obj [("success", JVal.bool true)] ≠
        JVal.obj [("success", idLib.encode (JVal.bool false))] := by
  refine ⟨rfl, ?_⟩
  simp [idLib]

/-- Claim C2 (amended): on a function route, a handler resolving with `V`
produces `{success: encode(V) || true}` — i.e. `{success: encode(V)}` exactly
when `encode(V)` is truthy, and `{success: true}` otherwise — and a handler
rejecting with `E` produces `{error: E || true}` — `E` passed through without
encoding when truthy, `true` otherwise; both with status 200. -/
theorem function_route_response {Obj : Type} (P : ParseLib Obj)
    (webhookKey : Option String) (s : CloudState Obj) (req : Req Obj)
    (n : JVal) (h : FnHandler Obj) (rt : Route Obj)
    (hauth : req.header = webhookKey)
    (hfind : findRoute s.app req.method req.path = some rt)
    (hchain : rt.chain = defineChain P n h) :
    (dispatch webhookKey s req).2.1.sent =
      some (match h (fnPipelineReq P req) with
            | .resolved v =>
                { status := 200, body := JVal.obj [("success", jsOr (P.encode v) (JVal.bool true))] }
            | .rejected e =>
                { status := 200, body := JVal.obj [("error", jsOr e (JVal.bool true))] }) := by
  have hd := dispatch_authorized webhookKey s req rt hauth hfind
  have h1 : dispatch webhookKey s req =
      runChain [functionAdapter h] (fnPipelineReq P req)
        { sent := none,
          success := fun data _ => some (successResponse (P.encode data)),
          error := fun data _ => some (errorResponse data) } := by
    rw [hd, hchain]
    exact rfl
  rw [h1, runChain_one]
  rcases hh : h (fnPipelineReq P req) with v | e <;>
    simp [functionAdapter, hh, callSuccess, callError, doSend, successResponse, errorResponse]

/-- Witness for the amended C2 at a concrete function dispatch. -/
theorem function_route_response_witness :
    (dispatch (some "k")
        (define idLib (JVal.str "flag") resolveFalse initState)
        (mkReq "/function_flag" (some "k") (JVal.obj []))).2.1.sent =
      some (match resolveFalse (fnPipelineReq idLib (mkReq "/function_flag" (some "k") (JVal.obj []))) with
            | .resolved v =>
                { status := 200, body := JVal.obj [("success", jsOr (idLib.encode v) (JVal.bool true))] }
            | .rejected e =>
                { status := 200, body := JVal.obj [("error", jsOr e (JVal.bool true))] }) :=
  function_route_response idLib (some "k") _ _ (JVal.str "flag") resolveFalse _
    rfl rfl rfl

/-- `inflateParseUser` never touches `req.object`. -/
theorem inflateUserReq_object {Obj : Type} (P : ParseLib Obj) (r : Req Obj) :
    (inflateUserReq P r).object = r.object := by
  unfold inflateUserReq
  split <;> rfl

/-- The object the save/delete-hook middleware leaves in `req.object`. -/
theorem savePipelineReq_object {Obj : Type} (P : ParseLib Obj) (req : Req Obj) :
    (savePipelineReq P req).object = some (inflatedObject P req.body) := by
  unfold savePipelineReq
  rw [inflateUserReq_object]
  rfl

/-- Response state right after `beforeSaveResponseMojo` wrapped `res.success`
over `addParseResponseMethods`. -/
def mojoRS {Obj : Type} (P : ParseLib Obj) : ResState Obj :=
  { sent := none,
    success := fun _ r =>
      match r.object with
      | some o => some (successResponse (P.toJSON o))
      | none => none,
    error := fun data _ => some (errorResponse data) }

/-- A beforeSave handler that rewrites `req.object` through `mut` and then
calls `res.success()` with no argument (JS passes `undefined`). -/
def mutSuccessHandler {Obj : Type} (mutate : Obj → Obj) : CCHandler Obj :=
  fun r => ({ r with object := r.object.map mutate }, some (HAct.success JVal.undefined))

/-- Claim C4: on a beforeSave route with body `{object: O}`, a handler that
(possibly) mutates `req.object` and then calls `context.success()` with no
argument gets the wire JSON of the possibly-mutated inflated object echoed
back as `{success: toJSON(req.object)}` (provided, as for the real Parse SDK,
that `toJSON` yields a truthy value); with no mutation and a round-tripping
SDK this is exactly `{success: O}`. -/
theorem before_save_success_echo {Obj : Type} (P : ParseLib Obj)
    (webhookKey : Option String) (s : CloudState Obj) (req : Req Obj)
    (c O : JVal) (mutate : Obj → Obj) (rt : Route Obj)
    (hbody : req.body = JVal.obj [("object", O)])
    (hauth : req.header = webhookKey)
    (hfind : findRoute s.app req.method req.path = some rt)
    (hchain : rt.chain = beforeSaveChain P c (mutSuccessHandler mutate))
    (htr : truthy (P.toJSON (mutate (P.fromJSON O))) = true) :
    (dispatch webhookKey s req).2.1.sent =
      some { status := 200, body := JVal.obj [("success", P.toJSON (mutate (P.fromJSON O)))] }
    ∧ ((∀ o : Obj, mutate o = o) → P.toJSON (P.fromJSON O) = O →
        (dispatch webhookKey s req).2.1.sent =
          some { status := 200, body := JVal.obj [("success", O)] }) := by
  have hd := dispatch_authorized webhookKey s req rt hauth hfind
  have h1 : dispatch webhookKey s req =
      runCCHandler (mutSuccessHandler mutate) (savePipelineReq P req) (mojoRS P) := by
    rw [hd, hchain]
    have h2 : runChain [runCCHandler (mutSuccessHandler mutate)]
        (savePipelineReq P req) (mojoRS P) =
        runCCHandler (mutSuccessHandler mutate) (savePipelineReq P req) (mojoRS P) :=
      runChain_one _ _ _
    exact h2
  have hobj : (savePipelineReq P req).object = some (P.fromJSON O) := by
    rw [savePipelineReq_object, hbody]
    simp [inflatedObject, getField, List.lookup, truthy]
  have hmain : (dispatch webhookKey s req).2.1.sent =
      some { status := 200, body := JVal.obj [("success", P.toJSON (mutate (P.fromJSON O)))] } := by
    rw [h1]
    simp [runCCHandler, mutSuccessHandler, callSuccess, mojoRS, doSend, hobj,
          successResponse, jsOr, htr]
  refine ⟨hmain, fun hmut hrt => ?_⟩
  rw [hmain, hmut, hrt]

/-- Witness for C4 at the spec's concrete example object. -/
theorem before_save_success_echo_witness :
    (dispatch (some "k")
        (beforeSave idLib (JVal.str "Post") (mutSuccessHandler (fun o => o)) initState)
        (mkReq "/beforeSave_Post" (some "k")
          (JVal.obj [("object",
            JVal.obj [("className", JVal.str "Post"), ("objectId", JVal.str "1"),
                      ("title", JVal.str "a")])]))).2.1.sent =
      some { status := 200,
             body := JVal.obj [("success",
               idLib.toJSON ((fun o => o) (idLib.fromJSON
                 (JVal.obj [("className", JVal.str "Post"), ("objectId", JVal.str "1"),
                            ("title", JVal.str "a")]))))] }
    ∧ ((∀ o : JVal, (fun o => o) o = o) →
        idLib.toJSON (idLib.fromJSON
          (JVal.obj [("className", JVal.str "Post"), ("objectId", JVal.str "1"),
                     ("title", JVal.str "a")])) =
          JVal.obj [("className", JVal.str "Post"), ("objectId", JVal.str "1"),
                    ("title", JVal.str "a")] →
        (dispatch (some "k")
          (beforeSave idLib (JVal.str "Post") (mutSuccessHandler (fun o => o)) initState)
          (mkReq "/beforeSave_Post" (some "k")
            (JVal.obj [("object",
              JVal.obj [("className", JVal.str "Post"), ("objectId", JVal.str "1"),
                        ("title", JVal.str "a")])]))).2.1.sent =
          some { status := 200,
                 body := JVal.obj [("success",
                   JVal.obj [("className", JVal.str "Post"), ("objectId", JVal.str "1"),
                             ("title", JVal.str "a")])] }) :=
  before_save_success_echo idLib (some "k") _ _ (JVal.str "Post") _ (fun o => o) _
    rfl rfl rfl rfl rfl

/-- A beforeSave handler that calls `res.success(x)` with an explicit payload. -/
def successArgHandler {Obj : Type} (x : JVal) : CCHandler Obj :=
  fun r => (r, some (HAct.success x))

/-- Claim C10: the `res.success` wrapper installed on beforeSave routes takes
no parameter, so a handler calling `context.success(x)` gets the same
response for every `x` — always `{success: toJSON(req.object)}` (with the
Parse SDK's `toJSON` yielding a truthy value), and never `{success: x}` for
any `x` that differs from that echo. -/
theorem before_save_ignores_payload {Obj : Type} (P : ParseLib Obj)
    (webhookKey : Option String) (s s2 : CloudState Obj) (req : Req Obj)
    (c c2 x y : JVal) (rt rt2 : Route Obj)
    (hauth : req.header = webhookKey)
    (hfind : findRoute s.app req.method req.path = some rt)
    (hchain : rt.chain = beforeSaveChain P c (successArgHandler x))
    (hfind2 : findRoute s2.app req.method req.path = some rt2)
    (hchain2 : rt2.chain = beforeSaveChain P c2 (successArgHandler y))
    (htr : truthy (P.toJSON (inflatedObject P req.body)) = true) :
    (dispatch webhookKey s req).2.1.sent =
      some { status := 200, body := JVal.obj [("success", P.toJSON (inflatedObject P req.body))] }
    ∧ dispatch webhookKey s req = dispatch webhookKey s2 req
    ∧ ∀ z : JVal, P.toJSON (inflatedObject P req.body) ≠ z →
        (dispatch webhookKey s req).2.1.sent ≠
          some { status := 200, body := JVal.obj [("success", z)] } := by
  have h1 : dispatch webhookKey s req =
      runCCHandler (successArgHandler x) (savePipelineReq P req) (mojoRS P) := by
    rw [dispatch_authorized webhookKey s req rt hauth hfind, hchain]
    have hone : runChain [runCCHandler (successArgHandler x)]
        (savePipelineReq P req) (mojoRS P) =
        runCCHandler (successArgHandler x) (savePipelineReq P req) (mojoRS P) :=
      runChain_one _ _ _
    exact hone
  have h2 : dispatch webhookKey s2 req =
      runCCHandler (successArgHandler y) (savePipelineReq P req) (mojoRS P) := by
    rw [dispatch_authorized webhookKey s2 req rt2 hauth hfind2, hchain2]
    have hone : runChain [runCCHandler (successArgHandler y)]
        (savePipelineReq P req) (mojoRS P) =
        runCCHandler (successArgHandler y) (savePipelineReq P req) (mojoRS P) :=
      runChain_one _ _ _
    exact hone
  have hobj := savePipelineReq_object P req
  have hmain : (dispatch webhookKey s req).2.1.sent =
      some { status := 200, body := JVal.obj [("success", P.toJSON (inflatedObject P req.body))] } := by
    rw [h1]
    simp [runCCHandler, successArgHandler, callSuccess, mojoRS, doSend, hobj,
          successResponse, jsOr, htr]
  refine ⟨hmain, ?_, ?_⟩
  · rw [h1, h2]
    exact rfl
  · intro z hz heq
    rw [hmain] at heq
    simp at heq
    exact hz heq

/-- Witness for C10 with two different explicit payloads. -/
theorem before_save_ignores_payload_witness :
    (dispatch (some "k")
        (beforeSave idLib (JVal.str "P") (successArgHandler (JVal.str "ignored")) initState)
        (mkReq "/beforeSave_P" (some "k")
          (JVal.obj [("object", JVal.obj [("a", JVal.num 1)])]))).2.1.sent =
      some { status := 200,
             body := JVal.obj [("success",
               idLib.toJSON (inflatedObject idLib
                 (JVal.obj [("object", JVal.obj [("a", JVal.num 1)])])))] }
    ∧ dispatch (some "k")
        (beforeSave idLib (JVal.str "P") (successArgHandler (JVal.str "ignored")) initState)
        (mkReq "/beforeSave_P" (some "k")
          (JVal.obj [("object", JVal.obj [("a", JVal.num 1)])])) =
      dispatch (some "k")
        (beforeSave idLib (JVal.str "P") (successArgHandler (JVal.num 7)) initState)
        (mkReq "/beforeSave_P" (some "k")
          (JVal.obj [("object", JVal.obj [("a", JVal.num 1)])]))
    ∧ ∀ z : JVal,
        idLib.toJSON (inflatedObject idLib
          (JVal.obj [("object", JVal.obj [("a", JVal.num 1)])])) ≠ z →
        (dispatch (some "k")
          (beforeSave idLib (JVal.str "P") (successArgHandler (JVal.str "ignored")) initState)
          (mkReq "/beforeSave_P" (some "k")
            (JVal.obj [("object", JVal.obj [("a", JVal.num 1)])]))).2.1.sent ≠
          some { status := 200, body := JVal.obj [("success", z)] } :=
  before_save_ignores_payload idLib (some "k") _ _ _
    (JVal.str "P") (JVal.str "P") (JVal.str "ignored") (JVal.num 7) _ _
    rfl rfl rfl rfl rfl rfl

/-- Claim C7 (counterexample): the claim predicts merge behaviour whenever
the body CONTAINS `original` and `update`; but with `update` present and
`null` the code takes the non-merge branch and inflates the body's `object`
field instead. -/
theorem inflate_object_cex :
    (dispatch (some "k")
        (beforeSave idLib (JVal.str "Post") noopHandler initState)
        (mkReq "/beforeSave_Post" (some "k")
          (JVal.obj [("original", JVal.obj [("k", JVal.str "v")]), ("update", JVal.null),
                     ("object", JVal.str "direct")]))).1.object =
      some (JVal.str "direct")
    ∧ JVal.str "direct" ≠
        idLib.set (idLib.fromJSON (JVal.obj [("k", JVal.str "v")])) (idLib.decode JVal.null) := by
  refine ⟨rfl, ?_⟩
  simp [idLib]

/-- Claim C7 (amended): for every save/delete-kind route, the object the
pipeline hands to the handler in `req.object` is: when the body carries both
`original` and `update` with TRUTHY values, the object reconstructed from
`original` with `update`'s decoded fields applied via `set`; otherwise the
object reconstructed directly from the body's `object` field. -/
theorem inflate_object_pipeline {Obj : Type} (P : ParseLib Obj)
    (webhookKey : Option String) (s : CloudState Obj) (req : Req Obj)
    (c : JVal) (h : CCHandler Obj) (rt : Route Obj)
    (hauth : req.header = webhookKey)
    (hfind : findRoute s.app req.method req.path = some rt)
    (hchain : rt.chain = beforeSaveChain P c h ∨ rt.chain = afterSaveChain P c h
      ∨ rt.chain = beforeDeleteChain P c h ∨ rt.chain = afterDeleteChain P c h) :
    (∃ rs1 : ResState Obj, dispatch webhookKey s req = runCCHandler h (savePipelineReq P req) rs1)
    ∧ (savePipelineReq P req).object =
        some (if truthy (getField req.body "original") && truthy (getField req.body "update")
              then P.set (P.fromJSON (getField req.body "original"))
                     (P.decode (getField req.body "update"))
              else P.fromJSON (getField req.body "object")) := by
  have hd := dispatch_authorized webhookKey s req rt hauth hfind
  constructor
  · rcases hchain with hch | hch | hch | hch
    · exact ⟨mojoRS P, by
        rw [hd, hch]
        have hone : runChain [runCCHandler h] (savePipelineReq P req) (mojoRS P) =
            runCCHandler h (savePipelineReq P req) (mojoRS P) := runChain_one _ _ _
        exact hone⟩
    · exact ⟨emptySentRS, by
        rw [hd, hch]
        have hone : runChain [runCCHandler h] (savePipelineReq P req) emptySentRS =
            runCCHandler h (savePipelineReq P req) emptySentRS := runChain_one _ _ _
        exact hone⟩
    · exact ⟨installedRS, by
        rw [hd, hch]
        have hone : runChain [runCCHandler h] (savePipelineReq P req) installedRS =
            runCCHandler h (savePipelineReq P req) installedRS := runChain_one _ _ _
        exact hone⟩
    · exact ⟨emptySentRS, by
        rw [hd, hch]
        have hone : runChain [runCCHandler h] (savePipelineReq P req) emptySentRS =
            runCCHandler h (savePipelineReq P req) emptySentRS := runChain_one _ _ _
        exact hone⟩
  · rw [savePipelineReq_object]
    rfl

/-- Witness for the amended C7 at a concrete merge request. -/
theorem inflate_object_pipeline_witness :
    (∃ rs1 : ResState JVal,
        dispatch (some "k")
          (beforeSave idLib (JVal.str "Doc") noopHandler initState)
          (mkReq "/beforeSave_Doc" (some "k")
            (JVal.obj [("original", JVal.obj [("a", JVal.num 1)]),
                       ("update", JVal.obj [("a", JVal.num 2)])])) =
          runCCHandler noopHandler
            (savePipelineReq idLib
              (mkReq "/beforeSave_Doc" (some "k")
                (JVal.obj [("original", JVal.obj [("a", JVal.num 1)]),
                           ("update", JVal.obj [("a", JVal.num 2)])]))) rs1)
    ∧ (savePipelineReq idLib
        (mkReq "/beforeSave_Doc" (some "k")
          (JVal.obj [("original", JVal.obj [("a", JVal.num 1)]),
                     ("update", JVal.obj [("a", JVal.num 2)])]))).object =
        some (if truthy (getField (JVal.obj [("original", JVal.obj [("a", JVal.num 1)]),
                                             ("update", JVal.obj [("a", JVal.num 2)])]) "original")
                 && truthy (getField (JVal.obj [("original", JVal.obj [("a", JVal.num 1)]),
                                                ("update", JVal.obj [("a", JVal.num 2)])]) "update")
              then idLib.set (idLib.fromJSON (getField (JVal.obj [("original", JVal.obj [("a", JVal.num 1)]),
                                                                  ("update", JVal.obj [("a", JVal.num 2)])]) "original"))
                     (idLib.decode (getField (JVal.obj [("original", JVal.obj [("a", JVal.num 1)]),
                                                        ("update", JVal.obj [("a", JVal.num 2)])]) "update"))
              else idLib.fromJSON (getField (JVal.obj [("original", JVal.obj [("a", JVal.num 1)]),
                                                       ("update", JVal.obj [("a", JVal.num 2)])]) "object")) :=
  inflate_object_pipeline idLib (some "k") _ _ (JVal.str "Doc") noopHandler _
    rfl rfl (Or.inl rfl)

/-- The class-name wrapper substitutes a truthy `className`; a plain string
(whose `className` is `undefined`) passes through unchanged. -/
theorem inflateWrap_truthy {Obj H : Type}
    (m : JVal → H → CloudState Obj → CloudState Obj) (v : JVal) (cn : String)
    (hd : H) (s : CloudState Obj)
    (hcn : getField v "className" = JVal.str cn) (hne : cn ≠ "") :
    inflateObjectsToClassNames m v hd s = m (JVal.str cn) hd s
    ∧ inflateObjectsToClassNames m (JVal.str cn) hd s = m (JVal.str cn) hd s := by
  have hnn : v ≠ JVal.null := by
    intro h
    rw [h] at hcn
    exact absurd hcn (by simp [getField])
  have hvn : isNull v = false := by
    cases v <;> first | rfl | exact absurd rfl hnn
  have htr : truthy (JVal.str cn) = true := by simp [truthy, hne]
  constructor
  · simp [inflateObjectsToClassNames, hvn, hcn, htr]
  · simp [inflateObjectsToClassNames, isNull, getField, truthy]

/-- The class-name wrapper passes a value with falsy `className` through. -/
theorem inflateWrap_falsy {Obj H : Type}
    (m : JVal → H → CloudState Obj → CloudState Obj) (w : JVal) (hd : H)
    (s : CloudState Obj) (hw : truthy (getField w "className") = false) :
    inflateObjectsToClassNames m w hd s = m w hd s := by
  simp [inflateObjectsToClassNames, hw]

/-- Claim C8 (counterexample): the claim covers all five registration
operations, but `Parse.Cloud.define` is assigned the raw `define` without the
class-name wrapper: registering a `{className: "Post"}` descriptor as a cloud
function binds `/function_[object Object]` (JS string coercion of the object)
and stores the object itself in the table — not the path and entry obtained
from the bare string `"Post"`. -/
theorem class_name_derivation_cex :
    (ParseCloudDefine idLib (JVal.obj [("className", JVal.str "Post")]) resolveFalse initState).app.map
        (fun rt => rt.path) = ["/function_[object Object]"]
    ∧ (ParseCloudDefine idLib (JVal.str "Post") resolveFalse initState).app.map
        (fun rt => rt.path) = ["/function_Post"]
    ∧ ("/function_[object Object]" : String) ≠ "/function_Post"
    ∧ (ParseCloudDefine idLib (JVal.obj [("className", JVal.str "Post")]) resolveFalse initState).routes.function =
        [JVal.obj [("className", JVal.str "Post")]]
    ∧ (ParseCloudDefine idLib (JVal.str "Post") resolveFalse initState).routes.function =
        [JVal.str "Post"]
    ∧ [JVal.obj [("className", JVal.str "Post")]] ≠ [JVal.str "Post"] := by
  refine ⟨rfl, rfl, by decide, rfl, rfl, ?_⟩
  simp

/-- Claim C8 (amended): for the four object-hook registrations, registering a
value whose `className` property is a non-empty string yields exactly the
same state as registering that bare string, and a value with a falsy
`className` (or `null`) is used as the identifier itself; `registerFunction`
(`Parse.Cloud.define`) never derives a class name — its identifier is used as
passed into both the synthesized path and the table entry. -/
theorem class_name_derivation {Obj : Type} (P : ParseLib Obj) (v : JVal)
    (cn : String) (hcc : CCHandler Obj) (hff : FnHandler Obj) (s : CloudState Obj)
    (hcn : getField v "className" = JVal.str cn) (hne : cn ≠ "") :
    ParseCloudBeforeSave P v hcc s = ParseCloudBeforeSave P (JVal.str cn) hcc s
    ∧ ParseCloudAfterSave P v hcc s = ParseCloudAfterSave P (JVal.str cn) hcc s
    ∧ ParseCloudBeforeDelete P v hcc s = ParseCloudBeforeDelete P (JVal.str cn) hcc s
    ∧ ParseCloudAfterDelete P v hcc s = ParseCloudAfterDelete P (JVal.str cn) hcc s
    ∧ (ParseCloudDefine P v hff s).app = s.app ++
        [{ method := "POST", path := "/function_" ++ jsToString v,
           chain := defineChain P v hff }]
    ∧ (ParseCloudDefine P v hff s).routes.function = s.routes.function ++ [v]
    ∧ ∀ w : JVal, truthy (getField w "className") = false →
        ParseCloudBeforeSave P w hcc s = beforeSave P w hcc s
        ∧ ParseCloudAfterSave P w hcc s = afterSave P w hcc s
        ∧ ParseCloudBeforeDelete P w hcc s = beforeDelete P w hcc s
        ∧ ParseCloudAfterDelete P w hcc s = afterDelete P w hcc s := by
  refine ⟨?_, ?_, ?_, ?_, rfl, rfl, ?_⟩
  · exact ((inflateWrap_truthy (beforeSave P) v cn hcc s hcn hne).1).trans
      ((inflateWrap_truthy (beforeSave P) v cn hcc s hcn hne).2).symm
  · exact ((inflateWrap_truthy (afterSave P) v cn hcc s hcn hne).1).trans
      ((inflateWrap_truthy (afterSave P) v cn hcc s hcn hne).2).symm
  · exact ((inflateWrap_truthy (beforeDelete P) v cn hcc s hcn hne).1).trans
      ((inflateWrap_truthy (beforeDelete P) v cn hcc s hcn hne).2).symm
  · exact ((inflateWrap_truthy (afterDelete P) v cn hcc s hcn hne).1).trans
      ((inflateWrap_truthy (afterDelete P) v cn hcc s hcn hne).2).symm
  · intro w hw
    exact ⟨inflateWrap_falsy (beforeSave P) w hcc s hw,
           inflateWrap_falsy (afterSave P) w hcc s hw,
           inflateWrap_falsy (beforeDelete P) w hcc s hw,
           inflateWrap_falsy (afterDelete P) w hcc s hw⟩

/-- Witness for the amended C8 at a concrete descriptor. -/
theorem class_name_derivation_witness :
    ParseCloudBeforeSave idLib (JVal.obj [("className", JVal.str "Post")]) noopHandler initState =
      ParseCloudBeforeSave idLib (JVal.str "Post") noopHandler initState
    ∧ ParseCloudAfterSave idLib (JVal.obj [("className", JVal.str "Post")]) noopHandler initState =
      ParseCloudAfterSave idLib (JVal.str "Post") noopHandler initState
    ∧ ParseCloudBeforeDelete idLib (JVal.obj [("className", JVal.str "Post")]) noopHandler initState =
      ParseCloudBeforeDelete idLib (JVal.str "Post") noopHandler initState
    ∧ ParseCloudAfterDelete idLib (JVal.obj [("className", JVal.str "Post")]) noopHandler initState =
      ParseCloudAfterDelete idLib (JVal.str "Post") noopHandler initState
    ∧ (ParseCloudDefine idLib (JVal.obj [("className", JVal.str "Post")]) resolveFalse initState).app =
        (initState : CloudState JVal).app ++
        [{ method := "POST",
           path := "/function_" ++ jsToString (JVal.obj [("className", JVal.str "Post")]),
           chain := defineChain idLib (JVal.obj [("className", JVal.str "Post")]) resolveFalse }]
    ∧ (ParseCloudDefine idLib (JVal.obj [("className", JVal.str "Post")]) resolveFalse initState).routes.function =
        (initState : CloudState JVal).routes.function ++ [JVal.obj [("className", JVal.str "Post")]]
    ∧ ∀ w : JVal, truthy (getField w "className") = false →
        ParseCloudBeforeSave idLib w noopHandler initState = beforeSave idLib w noopHandler initState
        ∧ ParseCloudAfterSave idLib w noopHandler initState = afterSave idLib w noopHandler initState
        ∧ ParseCloudBeforeDelete idLib w noopHandler initState = beforeDelete idLib w noopHandler initState
        ∧ ParseCloudAfterDelete idLib w noopHandler initState = afterDelete idLib w noopHandler initState :=
  class_name_derivation idLib (JVal.obj [("className", JVal.str "Post")]) "Post"
    noopHandler resolveFalse initState rfl (by decide)

/-- The shapes this layer's responses may take: status 200 and a body that is
a one-key success envelope, a one-key error envelope, or the bare empty
object flushed by `emptyResponse`. -/
def envelopeOK (r : Resp) : Prop :=
  r.status = 200 ∧
    ((∃ v, r.body = JVal.obj [("success", v)]) ∨ (∃ v, r.body = JVal.obj [("error", v)])
      ∨ r.body = JVal.obj [])

/-- A response closure that only ever produces `envelopeOK` responses. -/
def GoodFun {Obj : Type} (f : JVal → Req Obj → Option Resp) : Prop :=
  ∀ d req r, f d req = some r → envelopeOK r

/-- A response state whose flushed response and installed closures all stay
within the envelope shapes. -/
def GoodRS {Obj : Type} (rs : ResState Obj) : Prop :=
  (∀ r, rs.sent = some r → envelopeOK r) ∧ GoodFun rs.success ∧ GoodFun rs.error

/-- A middleware that preserves `GoodRS`. -/
def PreservesGood {Obj : Type} (m : Mid Obj) : Prop :=
  ∀ req rs, GoodRS rs → GoodRS (m req rs).2.1

theorem envelopeOK_successResponse (d : JVal) : envelopeOK (successResponse d) :=
  ⟨rfl, Or.inl ⟨_, rfl⟩⟩

theorem envelopeOK_errorResponse (d : JVal) : envelopeOK (errorResponse d) :=
  ⟨rfl, Or.inr (Or.inl ⟨_, rfl⟩)⟩

theorem envelopeOK_emptyBody : envelopeOK { status := 200, body := JVal.obj [] } :=
  ⟨rfl, Or.inr (Or.inr rfl)⟩

theorem goodRS_doSend {Obj : Type} (rs : ResState Obj) (r : Resp)
    (hrs : GoodRS rs) (hr : envelopeOK r) : GoodRS (doSend rs r) := by
  unfold doSend
  rcases hs : rs.sent with _ | r0
  · refine ⟨?_, hrs.2.1, hrs.2.2⟩
    intro r1 h1
    have h2 : r = r1 := by simpa using h1
    rw [← h2]
    exact hr
  · exact hrs

theorem goodRS_callSuccess {Obj : Type} (req : Req Obj) (rs : ResState Obj)
    (d : JVal) (hrs : GoodRS rs) : GoodRS (callSuccess req rs d) := by
  unfold callSuccess
  rcases hf : rs.success d req with _ | r
  · exact hrs
  · exact goodRS_doSend rs r hrs (hrs.2.1 d req r hf)

theorem goodRS_callError {Obj : Type} (req : Req Obj) (rs : ResState Obj)
    (d : JVal) (hrs : GoodRS rs) : GoodRS (callError req rs d) := by
  unfold callError
  rcases hf : rs.error d req with _ | r
  · exact hrs
  · exact goodRS_doSend rs r hrs (hrs.2.2 d req r hf)

theorem preserves_entryLogger {Obj : Type} (c : JVal) (a : String) :
    PreservesGood (entryLogger c a : Mid Obj) :=
  fun _ _ h => h

theorem preserves_updateInstallationId {Obj : Type} :
    PreservesGood (updateRequestInstallationId : Mid Obj) :=
  fun _ _ h => h

theorem preserves_updateFunctionParams {Obj : Type} :
    PreservesGood (updateRequestFunctionParams : Mid Obj) :=
  fun _ _ h => h

theorem preserves_inflateParseObject {Obj : Type} (P : ParseLib Obj) :
    PreservesGood (inflateParseObject P) :=
  fun _ _ h => h

theorem preserves_inflateParseUser {Obj : Type} (P : ParseLib Obj) :
    PreservesGood (inflateParseUser P) :=
  fun _ _ h => h

theorem preserves_addParseResponseMethods {Obj : Type} :
    PreservesGood (addParseResponseMethods : Mid Obj) := by
  intro req rs h
  refine ⟨h.1, ?_, ?_⟩
  · intro d q r hr
    have h2 : successResponse d = r := by simpa [addParseResponseMethods] using hr
    rw [← h2]
    exact envelopeOK_successResponse d
  · intro d q r hr
    have h2 : errorResponse d = r := by simpa [addParseResponseMethods] using hr
    rw [← h2]
    exact envelopeOK_errorResponse d

theorem preserves_encodeSuccessResponseObject {Obj : Type} (P : ParseLib Obj) :
    PreservesGood (encodeSuccessResponseObject P) := by
  intro req rs h
  exact ⟨h.1, fun d q r hr => h.2.1 (P.encode d) q r hr, h.2.2⟩

theorem preserves_beforeSaveResponseMojo {Obj : Type} (P : ParseLib Obj) :
    PreservesGood (beforeSaveResponseMojo P) := by
  intro req rs h
  refine ⟨h.1, ?_, h.2.2⟩
  intro d q r hr
  simp only [beforeSaveResponseMojo] at hr
  rcases hq : q.object with _ | o
  · rw [hq] at hr
    exact absurd hr (by simp)
  · rw [hq] at hr
    exact h.2.1 (P.toJSON o) q r hr

theorem preserves_emptyResponse {Obj : Type} :
    PreservesGood (emptyResponse : Mid Obj) :=
  fun _ rs h => goodRS_doSend rs _ h envelopeOK_emptyBody

theorem preserves_runCCHandler {Obj : Type} (hh : CCHandler Obj) :
    PreservesGood (runCCHandler hh) := by
  intro req rs h
  unfold runCCHandler
  rcases hr : hh req with ⟨req1, act⟩
  rcases act with _ | a
  · exact h
  · rcases a with d | d
    · exact goodRS_callSuccess req1 rs d h
    · exact goodRS_callError req1 rs d h

theorem preserves_functionAdapter {Obj : Type} (hh : FnHandler Obj) :
    PreservesGood (functionAdapter hh) := by
  intro req rs h
  unfold functionAdapter
  rcases hr : hh req with v | e
  · exact goodRS_callSuccess req rs v h
  · exact goodRS_callError req rs e h

/-- A middleware chain all of whose steps preserve `GoodRS`. -/
def GoodChain {Obj : Type} (c : List (Mid Obj)) : Prop := ∀ m ∈ c, PreservesGood m

theorem runChain_good {Obj : Type} (ms : List (Mid Obj)) (hms : GoodChain ms) :
    ∀ (req : Req Obj) (rs : ResState Obj), GoodRS rs → GoodRS (runChain ms req rs).2.1 := by
  induction ms with
  | nil => intro req rs h; exact h
  | cons m rest ih =>
    intro req rs h
    have hm : PreservesGood m := hms m (List.mem_cons_self m rest)
    have hrest : GoodChain rest := fun m2 hm2 => hms m2 (List.mem_cons_of_mem m hm2)
    rcases ht : m req rs with ⟨req1, rs1, b⟩
    have h1 : GoodRS rs1 := by
      have h2 := hm req rs h
      rw [ht] at h2
      exact h2
    cases b
    · simp only [runChain, ht]
      exact h1
    · simp only [runChain, ht]
      exact ih hrest req1 rs1 h1

theorem goodChain_beforeSave {Obj : Type} (P : ParseLib Obj) (c : JVal)
    (hh : CCHandler Obj) : GoodChain (beforeSaveChain P c hh) := by
  intro m hm
  simp only [beforeSaveChain, List.mem_cons, List.not_mem_nil, or_false] at hm
  rcases hm with rfl | rfl | rfl | rfl | rfl | rfl | rfl
  · exact preserves_entryLogger c "beforeSave"
  · exact preserves_updateInstallationId
  · exact preserves_addParseResponseMethods
  · exact preserves_inflateParseObject P
  · exact preserves_inflateParseUser P
  · exact preserves_beforeSaveResponseMojo P
  · exact preserves_runCCHandler hh

theorem goodChain_afterSave {Obj : Type} (P : ParseLib Obj) (c : JVal)
    (hh : CCHandler Obj) : GoodChain (afterSaveChain P c hh) := by
  intro m hm
  simp only [afterSaveChain, List.mem_cons, List.not_mem_nil, or_false] at hm
  rcases hm with rfl | rfl | rfl | rfl | rfl | rfl | rfl
  · exact preserves_entryLogger c "afterSave"
  · exact preserves_updateInstallationId
  · exact preserves_addParseResponseMethods
  · exact preserves_inflateParseObject P
  · exact preserves_inflateParseUser P
  · exact preserves_emptyResponse
  · exact preserves_runCCHandler hh

theorem goodChain_beforeDelete {Obj : Type} (P : ParseLib Obj) (c : JVal)
    (hh : CCHandler Obj) : GoodChain (beforeDeleteChain P c hh) := by
  intro m hm
  simp only [beforeDeleteChain, List.mem_cons, List.not_mem_nil, or_false] at hm
  rcases hm with rfl | rfl | rfl | rfl | rfl | rfl
  · exact preserves_entryLogger c "beforeDelete"
  · exact preserves_updateInstallationId
  · exact preserves_addParseResponseMethods
  · exact preserves_inflateParseObject P
  · exact preserves_inflateParseUser P
  · exact preserves_runCCHandler hh

theorem goodChain_afterDelete {Obj : Type} (P : ParseLib Obj) (c : JVal)
    (hh : CCHandler Obj) : GoodChain (afterDeleteChain P c hh) := by
  intro m hm
  simp only [afterDeleteChain, List.mem_cons, List.not_mem_nil, or_false] at hm
  rcases hm with rfl | rfl | rfl | rfl | rfl | rfl | rfl
  · exact preserves_entryLogger c "afterDelete"
  · exact preserves_updateInstallationId
  · exact preserves_addParseResponseMethods
  · exact preserves_inflateParseObject P
  · exact preserves_inflateParseUser P
  · exact preserves_emptyResponse
  · exact preserves_runCCHandler hh

theorem goodChain_define {Obj : Type} (P : ParseLib Obj) (n : JVal)
    (hh : FnHandler Obj) : GoodChain (defineChain P n hh) := by
  intro m hm
  simp only [defineChain, List.mem_cons, List.not_mem_nil, or_false] at hm
  rcases hm with rfl | rfl | rfl | rfl | rfl | rfl | rfl
  · exact preserves_entryLogger n "function"
  · exact preserves_updateInstallationId
  · exact preserves_updateFunctionParams
  · exact preserves_addParseResponseMethods
  · exact preserves_encodeSuccessResponseObject P
  · exact preserves_inflateParseUser P
  · exact preserves_functionAdapter hh

/-- A module state all of whose registered chains stay within the envelope
shapes. -/
def GoodApp {Obj : Type} (s : CloudState Obj) : Prop :=
  ∀ rt ∈ s.app, GoodChain rt.chain

theorem goodApp_beforeSave {Obj : Type} (P : ParseLib Obj) (c : JVal)
    (hh : CCHandler Obj) (s : CloudState Obj) (hs : GoodApp s) :
    GoodApp (beforeSave P c hh s) := by
  intro rt hrt
  simp only [beforeSave, List.mem_append, List.mem_cons, List.not_mem_nil, or_false] at hrt
  rcases hrt with hrt | rfl
  · exact hs rt hrt
  · exact goodChain_beforeSave P c hh

theorem goodApp_afterSave {Obj : Type} (P : ParseLib Obj) (c : JVal)
    (hh : CCHandler Obj) (s : CloudState Obj) (hs : GoodApp s) :
    GoodApp (afterSave P c hh s) := by
  intro rt hrt
  simp only [afterSave, List.mem_append, List.mem_cons, List.not_mem_nil, or_false] at hrt
  rcases hrt with hrt | rfl
  · exact hs rt hrt
  · exact goodChain_afterSave P c hh

theorem goodApp_beforeDelete {Obj : Type} (P : ParseLib Obj) (c : JVal)
    (hh : CCHandler Obj) (s : CloudState Obj) (hs : GoodApp s) :
    GoodApp (beforeDelete P c hh s) := by
  intro rt hrt
  simp only [beforeDelete, List.mem_append, List.mem_cons, List.not_mem_nil, or_false] at hrt
  rcases hrt with hrt | rfl
  · exact hs rt hrt
  · exact goodChain_beforeDelete P c hh

theorem goodApp_afterDelete {Obj : Type} (P : ParseLib Obj) (c : JVal)
    (hh : CCHandler Obj) (s : CloudState Obj) (hs : GoodApp s) :
    GoodApp (afterDelete P c hh s) := by
  intro rt hrt
  simp only [afterDelete, List.mem_append, List.mem_cons, List.not_mem_nil, or_false] at hrt
  rcases hrt with hrt | rfl
  · exact hs rt hrt
  · exact goodChain_afterDelete P c hh

theorem goodApp_define {Obj : Type} (P : ParseLib Obj) (n : JVal)
    (hh : FnHandler Obj) (s : CloudState Obj) (hs : GoodApp s) :
    GoodApp (define P n hh s) := by
  intro rt hrt
  simp only [define, List.mem_append, List.mem_cons, List.not_mem_nil, or_false] at hrt
  rcases hrt with hrt | rfl
  · exact hs rt hrt
  · exact goodChain_define P n hh

theorem goodApp_applyReg {Obj : Type} (P : ParseLib Obj) (op : RegOp Obj)
    (s : CloudState Obj) (hs : GoodApp s) : GoodApp (applyReg P op s) := by
  cases op with
  | regBeforeSave c hh =>
    simp only [applyReg, ParseCloudBeforeSave, inflateObjectsToClassNames]
    split
    · exact goodApp_beforeSave P c hh s hs
    · exact goodApp_beforeSave P _ hh s hs
  | regAfterSave c hh =>
    simp only [applyReg, ParseCloudAfterSave, inflateObjectsToClassNames]
    split
    · exact goodApp_afterSave P c hh s hs
    · exact goodApp_afterSave P _ hh s hs
  | regBeforeDelete c hh =>
    simp only [applyReg, ParseCloudBeforeDelete, inflateObjectsToClassNames]
    split
    · exact goodApp_beforeDelete P c hh s hs
    · exact goodApp_beforeDelete P _ hh s hs
  | regAfterDelete c hh =>
    simp only [applyReg, ParseCloudAfterDelete, inflateObjectsToClassNames]
    split
    · exact goodApp_afterDelete P c hh s hs
    · exact goodApp_afterDelete P _ hh s hs
  | regDefine n hh =>
    simp only [applyReg, ParseCloudDefine]
    exact goodApp_define P n hh s hs

theorem goodApp_buildState {Obj : Type} (P : ParseLib Obj) (ops : List (RegOp Obj)) :
    GoodApp (buildState P ops) := by
  suffices h : ∀ s : CloudState Obj, GoodApp s →
      GoodApp (List.foldl (fun s1 op => applyReg P op s1) s ops) by
    refine h initState ?_
    intro rt hrt
    simp [initState] at hrt
  induction ops with
  | nil => intro s hs; exact hs
  | cons op rest ih =>
    intro s hs
    exact ih (applyReg P op s) (goodApp_applyReg P op s hs)

theorem goodRS_init {Obj : Type} : GoodRS (initResState : ResState Obj) := by
  refine ⟨?_, ?_, ?_⟩
  · intro r h
    exact absurd h (by simp [initResState])
  · intro d q r h
    exact absurd h (by simp [initResState])
  · intro d q r h
    exact absurd h (by simp [initResState])

/-- Claim C6 (counterexample): the afterSave / afterDelete auto-response body
is the bare `{}`, which carries neither a `success` nor an `error` key — the
claim's "exactly one of the two keys, never neither" fails. -/
theorem envelope_cex :
    (dispatch (some "k")
        (afterDelete idLib (JVal.str "Gone") noopHandler initState)
        (mkReq "/afterDelete_Gone" (some "k") (JVal.obj [("object", JVal.obj [])]))).2.1.sent =
      some { status := 200, body := JVal.obj [] }
    ∧ (∀ v, JVal.obj [] ≠ JVal.obj [("success", v)])
    ∧ (∀ v, JVal.obj [] ≠ JVal.obj [("error", v)]) := by
  refine ⟨rfl, ?_, ?_⟩ <;> intro v <;> simp

/-- Claim C6 (amended): every response this layer flushes — on any app built
from any sequence of registrations, any request and any outcome — has HTTP
status 200, and its body is a one-key `{success: v}` envelope, a one-key
`{error: v}` envelope, or the bare empty object `{}` (the latter exactly what
the afterSave / afterDelete auto-response sends). -/
theorem envelope_invariant {Obj : Type} (P : ParseLib Obj)
    (webhookKey : Option String) (ops : List (RegOp Obj)) (req : Req Obj)
    (r : Resp)
    (hsent : (dispatch webhookKey (buildState P ops) req).2.1.sent = some r) :
    r.status = 200 ∧
      ((∃ v, r.body = JVal.obj [("success", v)]) ∨ (∃ v, r.body = JVal.obj [("error", v)])
        ∨ r.body = JVal.obj []) := by
  by_cases hk : req.header = webhookKey
  · rcases hfr : findRoute (buildState P ops).app req.method req.path with _ | rt
    · have hv : validateWebhookRequest webhookKey req (initResState : ResState Obj) =
          (req, initResState, true) := by
        simp [validateWebhookRequest, hk]
      have hd : dispatch webhookKey (buildState P ops) req = (req, initResState, true) := by
        simp only [dispatch, hv, jsonParser, hfr]
      rw [hd] at hsent
      exact absurd hsent (by simp [initResState])
    · have hd := dispatch_authorized webhookKey (buildState P ops) req rt hk hfr
      have hgc : GoodChain rt.chain :=
        goodApp_buildState P ops rt (List.mem_of_find?_eq_some hfr)
      have hgood := runChain_good rt.chain hgc req initResState goodRS_init
      rw [hd] at hsent
      exact hgood.1 r hsent
  · have hv : validateWebhookRequest webhookKey req (initResState : ResState Obj) =
        (req, doSend initResState (errorResponse (JVal.str "Unauthorized Request.")), false) := by
      simp [validateWebhookRequest, hk]
    have hd : dispatch webhookKey (buildState P ops) req =
        (req, doSend initResState (errorResponse (JVal.str "Unauthorized Request.")), false) := by
      simp only [dispatch, hv]
    rw [hd] at hsent
    simp only [doSend, initResState, Option.some.injEq] at hsent
    rw [← hsent]
    exact envelopeOK_errorResponse (JVal.str "Unauthorized Request.")

/-- Witness for the amended C6 at a concrete flushed response. -/
theorem envelope_invariant_witness :
    ({ status := 200, body := JVal.obj [("error", JVal.str "Unauthorized Request.")] } : Resp).status = 200
    ∧ ((∃ v, ({ status := 200, body := JVal.obj [("error", JVal.str "Unauthorized Request.")] } : Resp).body =
          JVal.obj [("success", v)])
       ∨ (∃ v, ({ status := 200, body := JVal.obj [("error", JVal.str "Unauthorized Request.")] } : Resp).body =
          JVal.obj [("error", v)])
       ∨ ({ status := 200, body := JVal.obj [("error", JVal.str "Unauthorized Request.")] } : Resp).body =
          JVal.obj []) :=
  envelope_invariant idLib (some "k") [] (mkReq "/missing" (some "bad") (JVal.obj []))
    { status := 200, body := JVal.obj [("error", JVal.str "Unauthorized Request.")] } rfl
